import Mathlib

/-!
Shallow embedding of `src/src/lib/BrownNoiseGenerator.svelte`.

The component is a single Svelte widget driving the Web Audio API.  We model:

* `createBrownNoise` as a pure function from the stream of `Math.random()*2-1`
  draws (rationals in `[-1,1]`) to the list of stored buffer samples;
* the component's mutable top-level variables as a record `AudioState`;
* every handler (`setupAnalyser`, `drawWaveform`, `setupBinauralBeats`,
  `updateBinauralBeats`, `setBrainwavePreset`, `toggleBrownNoise`,
  `toggleBinauralBeats`, `updateVolume`, the `onDestroy` teardown) as a
  state transformer, translated line by line from the source.

Web-Audio objects are modelled by identifiers allocated from a counter
`nextId` (audio buffers from their own counter `nextBuf`); `connect`
appends a `(source, destination)` pair to `conns` and a no-argument
`disconnect()` removes every pair whose source is the node, matching Web
Audio semantics.  Calls with externally visible effects (`start`, `stop`,
`disconnect`, `cancelAnimationFrame`, `audioContext.close`,
`requestAnimationFrame`) are additionally recorded in an event `trace`, so
ordering claims can be stated.  A context's `destination` sink is
identified with the context's own id (no claim distinguishes them).
-/

/-- Audio samples, gain values and frequencies are modelled as rationals:
every numeric literal in the source (`0.02`, `1.02`, `3.5`, `0.1`, …) is
exactly representable, and all definitions stay executable. -/
abbrev Sample := ℚ

/-- One iteration of the loop body of `createBrownNoise`:
`data[i] = (lastOut + 0.02 * white) / 1.02; lastOut = data[i]; data[i] *= 3.5`.
`brownLoop lastOut whites` returns the list of stored (post-`*= 3.5`)
samples for the remaining white-noise draws `whites`. -/
def brownLoop : ℚ → List ℚ → List ℚ
  | _, [] => []
  | lastOut, w :: ws =>
      let x := (lastOut + 0.02 * w) / 1.02
      (x * 3.5) :: brownLoop x ws

/-- `createBrownNoise` (lines 36–55): the channel data of the returned
buffer, as a function of the white-noise draws (`Math.random() * 2 - 1`,
one per sample, each in `[-1, 1]`).  `lastOut` starts at `0`. -/
def createBrownNoiseData (whites : List ℚ) : List ℚ :=
  brownLoop 0 whites

/-- Externally visible audio / scheduling effects, in program order. -/
inductive AudioEvent
  | start (node : ℕ)
  | stop (node : ℕ)
  | disconnect (node : ℕ)
  | requestFrame (id : ℕ)
  | cancelFrame (id : ℕ)
  | closeContext (ctx : ℕ)
  deriving DecidableEq

/-- The component's top-level mutable variables (lines 4–20), plus the
bookkeeping needed to model Web-Audio objects: `nextId` allocates node and
animation-frame ids, `nextBuf` allocates audio-buffer ids, `conns` is the
set of live `connect` edges, `trace` the emitted `AudioEvent`s.
`mergerNode` is a ghost field recording the merger created by the latest
`setupBinauralBeats` call (the source keeps it only in a local variable,
alive through its connections). `canvas : Bool` abstracts `canvas` being
bound and `getContext` succeeding. -/
structure AudioState where
  audioContext : Option ℕ
  brownNoiseNode : Option ℕ
  brownNoiseBuf : Option ℕ
  brownNoiseLoop : Bool
  gainNode : Option ℕ
  gainValue : ℚ
  analyserNode : Option ℕ
  fftSize : ℕ
  leftOscillator : Option ℕ
  rightOscillator : Option ℕ
  leftGain : Option ℕ
  rightGain : Option ℕ
  leftGainValue : ℚ
  rightGainValue : ℚ
  leftOscFreq : ℚ
  rightOscFreq : ℚ
  mergerNode : Option ℕ
  isBrownNoisePlaying : Bool
  isBinauralPlaying : Bool
  volume : ℚ
  baseFrequency : ℚ
  beatFrequency : ℚ
  canvas : Bool
  animationFrameId : Option ℕ
  nextId : ℕ
  nextBuf : ℕ
  conns : List (ℕ × ℕ)
  trace : List AudioEvent
  deriving DecidableEq

/-- The component's initial bindings (lines 4–20): everything null, both
flags false, `volume = 0.5`, `baseFrequency = 200`, `beatFrequency = 0.5`;
the canvas is bound on mount. -/
def initialState : AudioState where
  audioContext := none
  brownNoiseNode := none
  brownNoiseBuf := none
  brownNoiseLoop := false
  gainNode := none
  gainValue := 1
  analyserNode := none
  fftSize := 0
  leftOscillator := none
  rightOscillator := none
  leftGain := none
  rightGain := none
  leftGainValue := 1
  rightGainValue := 1
  leftOscFreq := 0
  rightOscFreq := 0
  mergerNode := none
  isBrownNoisePlaying := false
  isBinauralPlaying := false
  volume := 0.5
  baseFrequency := 200
  beatFrequency := 0.5
  canvas := true
  animationFrameId := none
  nextId := 0
  nextBuf := 0
  conns := []
  trace := []

/-- `drawWaveform` (lines 71–110): returns early unless the analyser and
canvas (with its 2d context) exist; the canvas drawing itself has no
audio-visible effect; finally stores `requestAnimationFrame(drawWaveform)`
in `animationFrameId`. -/
def drawWaveform (s : AudioState) : AudioState :=
  if s.analyserNode = none ∨ s.canvas = false then s
  else
    { s with animationFrameId := some s.nextId
             nextId := s.nextId + 1
             trace := s.trace ++ [AudioEvent.requestFrame s.nextId] }

/-- `setupAnalyser` (lines 57–69): guard on `audioContext`; create the
analyser, set `fftSize = 2048`; if the gain node exists, connect
`gainNode → analyser → destination`; start the animation when audio is
playing and no frame is scheduled. -/
def setupAnalyser (s : AudioState) : AudioState :=
  match s.audioContext with
  | none => s
  | some ctx =>
      let aId := s.nextId
      let s1 := { s with analyserNode := some aId, nextId := s.nextId + 1, fftSize := 2048 }
      let s2 :=
        match s1.gainNode with
        | some g => { s1 with conns := s1.conns ++ [(g, aId), (aId, ctx)] }
        | none => s1
      if (s2.isBrownNoisePlaying = true ∨ s2.isBinauralPlaying = true) ∧
          s2.animationFrameId = none then
        drawWaveform s2
      else s2

/-- The identical lazy-initialisation block at the head of both
`setupBinauralBeats` (lines 113–118) and `toggleBrownNoise` (lines
192–197): `audioContext = new AudioContext(); gainNode =
audioContext.createGain(); setupAnalyser(); gainNode.gain.value = volume`. -/
def initContext (s : AudioState) : AudioState :=
  if s.audioContext = none then
    let ctxId := s.nextId
    let gId := s.nextId + 1
    let s1 := { s with audioContext := some ctxId, gainNode := some gId,
                       nextId := s.nextId + 2 }
    let s2 := setupAnalyser s1
    { s2 with gainValue := s2.volume }
  else s

/-- Body of `setupBinauralBeats` after the lazy context init (lines
120–153): create the two oscillators and their per-channel gains; set the
oscillator frequencies; create the channel merger; wire
`leftOscillator → leftGain → merger`, `rightOscillator → rightGain →
merger`, `merger → gainNode` (if the gain node exists); set both channel
gains to `0.1`; start both oscillators. -/
def setupBinauralBeatsBody (s0 : AudioState) : AudioState :=
  let lOsc := s0.nextId
  let rOsc := s0.nextId + 1
  let lG := s0.nextId + 2
  let rG := s0.nextId + 3
  let merger := s0.nextId + 4
  let s1 := { s0 with
    leftOscillator := some lOsc
    rightOscillator := some rOsc
    leftGain := some lG
    rightGain := some rG
    mergerNode := some merger
    nextId := s0.nextId + 5
    leftOscFreq := s0.baseFrequency
    rightOscFreq := s0.baseFrequency + s0.beatFrequency
    conns := s0.conns ++ [(lOsc, lG), (lG, merger), (rOsc, rG), (rG, merger)] }
  let s2 :=
    match s1.gainNode with
    | some g => { s1 with conns := s1.conns ++ [(merger, g)] }
    | none => s1
  { s2 with
    leftGainValue := 0.1
    rightGainValue := 0.1
    trace := s2.trace ++ [AudioEvent.start lOsc, AudioEvent.start rOsc] }

/-- `setupBinauralBeats` (lines 112–154): the lazy context-creation block
followed by the oscillator setup. -/
def setupBinauralBeats (s : AudioState) : AudioState :=
  setupBinauralBeatsBody (initContext s)

/-- `updateBinauralBeats` (lines 156–161): if both oscillators exist,
update their frequencies in place. -/
def updateBinauralBeats (s : AudioState) : AudioState :=
  match s.leftOscillator, s.rightOscillator with
  | some _, some _ =>
      { s with leftOscFreq := s.baseFrequency
               rightOscFreq := s.baseFrequency + s.beatFrequency }
  | _, _ => s

/-- Body of `toggleBrownNoise` after the lazy context init (lines
199–214): if not playing, create a buffer source, generate a fresh
brown-noise buffer, set looping, (if the gain node exists) set the gain to
`volume * 0.1` and connect, then start and set the flag; if playing, stop,
disconnect, null the node and clear the flag. -/
def toggleBrownNoiseBody (s0 : AudioState) : AudioState :=
  if s0.isBrownNoisePlaying = false then
    let nId := s0.nextId
    let bId := s0.nextBuf
    let s1 := { s0 with
      brownNoiseNode := some nId
      brownNoiseBuf := some bId
      brownNoiseLoop := true
      nextId := s0.nextId + 1
      nextBuf := s0.nextBuf + 1 }
    let s2 :=
      match s1.gainNode with
      | some g =>
          { s1 with gainValue := s1.volume * 0.1, conns := s1.conns ++ [(nId, g)] }
      | none => s1
    { s2 with trace := s2.trace ++ [AudioEvent.start nId], isBrownNoisePlaying := true }
  else
    let s1 :=
      match s0.brownNoiseNode with
      | some n =>
          { s0 with trace := s0.trace ++ [AudioEvent.stop n, AudioEvent.disconnect n]
                    conns := s0.conns.filter (fun p => p.1 != n) }
      | none => s0
    { s1 with brownNoiseNode := none, isBrownNoisePlaying := false }

/-- `toggleBrownNoise` (lines 191–215): the lazy context-creation block
followed by the start/stop branch. -/
def toggleBrownNoise (s : AudioState) : AudioState :=
  toggleBrownNoiseBody (initContext s)

/-- `toggleBinauralBeats` (lines 217–230): if not playing, run
`setupBinauralBeats` and set the flag; if playing, stop both oscillators,
disconnect both, null both references and clear the flag. -/
def toggleBinauralBeats (s : AudioState) : AudioState :=
  if s.isBinauralPlaying = false then
    let s1 := setupBinauralBeats s
    { s1 with isBinauralPlaying := true }
  else
    let s1 :=
      match s.leftOscillator with
      | some n => { s with trace := s.trace ++ [AudioEvent.stop n] }
      | none => s
    let s2 :=
      match s1.rightOscillator with
      | some n => { s1 with trace := s1.trace ++ [AudioEvent.stop n] }
      | none => s1
    let s3 :=
      match s2.leftOscillator with
      | some n =>
          { s2 with trace := s2.trace ++ [AudioEvent.disconnect n]
                    conns := s2.conns.filter (fun p => p.1 != n) }
      | none => s2
    let s4 :=
      match s3.rightOscillator with
      | some n =>
          { s3 with trace := s3.trace ++ [AudioEvent.disconnect n]
                    conns := s3.conns.filter (fun p => p.1 != n) }
      | none => s3
    { s4 with leftOscillator := none, rightOscillator := none,
              isBinauralPlaying := false }

/-- The branch of `setBrainwavePreset` on the selected preset (lines
163–180): `null` toggles brown noise and then stops the binaural beats if
they are (now) playing; a numeric frequency stores it as the beat
frequency, stops brown noise if playing, then starts the binaural beats if
inactive or updates them in place. -/
def setBrainwavePresetCore (frequency : Option ℚ) (s : AudioState) : AudioState :=
  match frequency with
  | none =>
      let t := toggleBrownNoise s
      if t.isBinauralPlaying = true then toggleBinauralBeats t else t
  | some f =>
      let t := { s with beatFrequency := f }
      let t1 := if t.isBrownNoisePlaying = true then toggleBrownNoise t else t
      if t1.isBinauralPlaying = false then toggleBinauralBeats t1
      else updateBinauralBeats t1

/-- The tail of `setBrainwavePreset` (lines 182–188): start the animation
when something is playing and no frame is scheduled; cancel it when
nothing is playing and a frame is scheduled. -/
def presetAnimationStep (s1 : AudioState) : AudioState :=
  if (s1.isBrownNoisePlaying = true ∨ s1.isBinauralPlaying = true) ∧
      s1.animationFrameId = none then
    drawWaveform s1
  else if s1.isBrownNoisePlaying = false ∧ s1.isBinauralPlaying = false ∧
      s1.animationFrameId ≠ none then
    match s1.animationFrameId with
    | some fid =>
        { s1 with animationFrameId := none, trace := s1.trace ++ [AudioEvent.cancelFrame fid] }
    | none => s1
  else s1

/-- `setBrainwavePreset` (lines 163–189): the preset branch followed by
the animation start/stop step. -/
def setBrainwavePreset (frequency : Option ℚ) (s : AudioState) : AudioState :=
  presetAnimationStep (setBrainwavePresetCore frequency s)

/-- `updateVolume` (lines 232–240): guard on the gain node; set its gain
to `volume * 0.1` while brown noise is playing, else to `volume`. -/
def updateVolume (s : AudioState) : AudioState :=
  match s.gainNode with
  | some _ =>
      if s.isBrownNoisePlaying = true then { s with gainValue := s.volume * 0.1 }
      else { s with gainValue := s.volume }
  | none => s

/-- The volume slider (lines 296–304): `bind:value={volume}` stores the
new value, then `on:input={updateVolume}` runs the handler. -/
def setVolume (v : ℚ) (s : AudioState) : AudioState :=
  updateVolume { s with volume := v }

/-- The `onDestroy` teardown (lines 256–276): cancel the pending animation
frame (nulling the id), stop and disconnect the brown-noise node, then the
left oscillator, then the right oscillator — each only if present — and
finally close the audio context. -/
def destroyComponent (s : AudioState) : AudioState :=
  let s1 :=
    match s.animationFrameId with
    | some fid =>
        { s with animationFrameId := none, trace := s.trace ++ [AudioEvent.cancelFrame fid] }
    | none => s
  let s2 :=
    match s1.brownNoiseNode with
    | some n =>
        { s1 with trace := s1.trace ++ [AudioEvent.stop n, AudioEvent.disconnect n]
                  conns := s1.conns.filter (fun p => p.1 != n) }
    | none => s1
  let s3 :=
    match s2.leftOscillator with
    | some n =>
        { s2 with trace := s2.trace ++ [AudioEvent.stop n, AudioEvent.disconnect n]
                  conns := s2.conns.filter (fun p => p.1 != n) }
    | none => s2
  let s4 :=
    match s3.rightOscillator with
    | some n =>
        { s3 with trace := s3.trace ++ [AudioEvent.stop n, AudioEvent.disconnect n]
                  conns := s3.conns.filter (fun p => p.1 != n) }
    | none => s3
  match s4.audioContext with
  | some c => { s4 with trace := s4.trace ++ [AudioEvent.closeContext c] }
  | none => s4


/-- At most one of the two playback modes is marked playing. -/
def atMostOnePlaying (s : AudioState) : Prop :=
  s.isBrownNoisePlaying = false ∨ s.isBinauralPlaying = false

/-- The state reached by clicking the Brown Noise preset in the initial
state: noise playing, context/gain/analyser created, animation running. -/
def noiseState : AudioState := setBrainwavePreset none initialState

/-- The state reached by clicking the Theta preset in the initial state:
binaural tones playing at beat frequency 4. -/
def toneState : AudioState := setBrainwavePreset (some 4) initialState

/-- Noise and tones both running (reachable by toggling the binaural
beats directly while noise plays — not through the preset buttons). -/
def bothState : AudioState := toggleBinauralBeats noiseState

/-- The invariant the code actually maintains on the shared gain stage:
the context and gain node exist together; while brown noise plays the gain
node exists and its gain is `volume * 0.1`; and whenever the gain node
exists its gain is either `volume` (fresh context, or last volume change
while noise was off) or `volume * 0.1` (noise playing, or stale after
noise stopped). -/
def gainInvariant (s : AudioState) : Prop :=
  s.audioContext.isSome = s.gainNode.isSome ∧
  (s.isBrownNoisePlaying = true → s.gainNode.isSome = true) ∧
  (s.isBrownNoisePlaying = true → s.gainValue = s.volume * 0.1) ∧
  (s.gainNode.isSome = true → s.gainValue = s.volume ∨ s.gainValue = s.volume * 0.1)

/-- The recurrence the spec asserts for the stored samples: each stored
sample comes from the previous stored sample with gain `0.02` on a white
draw in `[-1, 1]` (`data[-1]` taken as `0`). -/
def storedRecurrence (data : List ℚ) : Prop :=
  ∀ i, i < data.length →
    ∃ w : ℚ, -1 ≤ w ∧ w ≤ 1 ∧
      data.getD i 0 =
        ((if i = 0 then 0 else data.getD (i - 1) 0) + 0.02 * w) / 1.02

/-! ### Frame lemmas: which fields each operation leaves untouched -/

theorem drawWaveform_audioContext (s : AudioState) :
    (drawWaveform s).audioContext = s.audioContext := by
  unfold drawWaveform
  repeat' split
  all_goals rfl

theorem drawWaveform_gainNode (s : AudioState) :
    (drawWaveform s).gainNode = s.gainNode := by
  unfold drawWaveform
  repeat' split
  all_goals rfl

theorem drawWaveform_gainValue (s : AudioState) :
    (drawWaveform s).gainValue = s.gainValue := by
  unfold drawWaveform
  repeat' split
  all_goals rfl

theorem drawWaveform_volume (s : AudioState) :
    (drawWaveform s).volume = s.volume := by
  unfold drawWaveform
  repeat' split
  all_goals rfl

theorem drawWaveform_isBrownNoisePlaying (s : AudioState) :
    (drawWaveform s).isBrownNoisePlaying = s.isBrownNoisePlaying := by
  unfold drawWaveform
  repeat' split
  all_goals rfl

theorem drawWaveform_isBinauralPlaying (s : AudioState) :
    (drawWaveform s).isBinauralPlaying = s.isBinauralPlaying := by
  unfold drawWaveform
  repeat' split
  all_goals rfl

theorem drawWaveform_nextBuf (s : AudioState) :
    (drawWaveform s).nextBuf = s.nextBuf := by
  unfold drawWaveform
  repeat' split
  all_goals rfl

theorem drawWaveform_brownNoiseBuf (s : AudioState) :
    (drawWaveform s).brownNoiseBuf = s.brownNoiseBuf := by
  unfold drawWaveform
  repeat' split
  all_goals rfl

theorem drawWaveform_brownNoiseNode (s : AudioState) :
    (drawWaveform s).brownNoiseNode = s.brownNoiseNode := by
  unfold drawWaveform
  repeat' split
  all_goals rfl

theorem drawWaveform_leftOscillator (s : AudioState) :
    (drawWaveform s).leftOscillator = s.leftOscillator := by
  unfold drawWaveform
  repeat' split
  all_goals rfl

theorem drawWaveform_rightOscillator (s : AudioState) :
    (drawWaveform s).rightOscillator = s.rightOscillator := by
  unfold drawWaveform
  repeat' split
  all_goals rfl

theorem drawWaveform_leftGain (s : AudioState) :
    (drawWaveform s).leftGain = s.leftGain := by
  unfold drawWaveform
  repeat' split
  all_goals rfl

theorem drawWaveform_rightGain (s : AudioState) :
    (drawWaveform s).rightGain = s.rightGain := by
  unfold drawWaveform
  repeat' split
  all_goals rfl

theorem drawWaveform_mergerNode (s : AudioState) :
    (drawWaveform s).mergerNode = s.mergerNode := by
  unfold drawWaveform
  repeat' split
  all_goals rfl

theorem drawWaveform_conns (s : AudioState) :
    (drawWaveform s).conns = s.conns := by
  unfold drawWaveform
  repeat' split
  all_goals rfl

theorem setupAnalyser_audioContext (s : AudioState) :
    (setupAnalyser s).audioContext = s.audioContext := by
  unfold setupAnalyser drawWaveform
  try dsimp only []
  repeat' split
  all_goals rfl

theorem setupAnalyser_gainNode (s : AudioState) :
    (setupAnalyser s).gainNode = s.gainNode := by
  unfold setupAnalyser drawWaveform
  try dsimp only []
  repeat' split
  all_goals rfl

theorem setupAnalyser_gainValue (s : AudioState) :
    (setupAnalyser s).gainValue = s.gainValue := by
  unfold setupAnalyser drawWaveform
  try dsimp only []
  repeat' split
  all_goals rfl

theorem setupAnalyser_volume (s : AudioState) :
    (setupAnalyser s).volume = s.volume := by
  unfold setupAnalyser drawWaveform
  try dsimp only []
  repeat' split
  all_goals rfl

theorem setupAnalyser_isBrownNoisePlaying (s : AudioState) :
    (setupAnalyser s).isBrownNoisePlaying = s.isBrownNoisePlaying := by
  unfold setupAnalyser drawWaveform
  try dsimp only []
  repeat' split
  all_goals rfl

theorem setupAnalyser_isBinauralPlaying (s : AudioState) :
    (setupAnalyser s).isBinauralPlaying = s.isBinauralPlaying := by
  unfold setupAnalyser drawWaveform
  try dsimp only []
  repeat' split
  all_goals rfl

theorem setupAnalyser_nextBuf (s : AudioState) :
    (setupAnalyser s).nextBuf = s.nextBuf := by
  unfold setupAnalyser drawWaveform
  try dsimp only []
  repeat' split
  all_goals rfl

theorem setupAnalyser_brownNoiseBuf (s : AudioState) :
    (setupAnalyser s).brownNoiseBuf = s.brownNoiseBuf := by
  unfold setupAnalyser drawWaveform
  try dsimp only []
  repeat' split
  all_goals rfl

theorem setupAnalyser_brownNoiseNode (s : AudioState) :
    (setupAnalyser s).brownNoiseNode = s.brownNoiseNode := by
  unfold setupAnalyser drawWaveform
  try dsimp only []
  repeat' split
  all_goals rfl

theorem setupAnalyser_leftOscillator (s : AudioState) :
    (setupAnalyser s).leftOscillator = s.leftOscillator := by
  unfold setupAnalyser drawWaveform
  try dsimp only []
  repeat' split
  all_goals rfl

theorem setupAnalyser_rightOscillator (s : AudioState) :
    (setupAnalyser s).rightOscillator = s.rightOscillator := by
  unfold setupAnalyser drawWaveform
  try dsimp only []
  repeat' split
  all_goals rfl

theorem setupAnalyser_leftGain (s : AudioState) :
    (setupAnalyser s).leftGain = s.leftGain := by
  unfold setupAnalyser drawWaveform
  try dsimp only []
  repeat' split
  all_goals rfl

theorem setupAnalyser_rightGain (s : AudioState) :
    (setupAnalyser s).rightGain = s.rightGain := by
  unfold setupAnalyser drawWaveform
  try dsimp only []
  repeat' split
  all_goals rfl

theorem setupAnalyser_mergerNode (s : AudioState) :
    (setupAnalyser s).mergerNode = s.mergerNode := by
  unfold setupAnalyser drawWaveform
  try dsimp only []
  repeat' split
  all_goals rfl

theorem initContext_volume (s : AudioState) :
    (initContext s).volume = s.volume := by
  unfold initContext setupAnalyser drawWaveform
  try dsimp only []
  repeat' split
  all_goals rfl

theorem initContext_isBrownNoisePlaying (s : AudioState) :
    (initContext s).isBrownNoisePlaying = s.isBrownNoisePlaying := by
  unfold initContext setupAnalyser drawWaveform
  try dsimp only []
  repeat' split
  all_goals rfl

theorem initContext_isBinauralPlaying (s : AudioState) :
    (initContext s).isBinauralPlaying = s.isBinauralPlaying := by
  unfold initContext setupAnalyser drawWaveform
  try dsimp only []
  repeat' split
  all_goals rfl

theorem initContext_nextBuf (s : AudioState) :
    (initContext s).nextBuf = s.nextBuf := by
  unfold initContext setupAnalyser drawWaveform
  try dsimp only []
  repeat' split
  all_goals rfl

theorem initContext_brownNoiseBuf (s : AudioState) :
    (initContext s).brownNoiseBuf = s.brownNoiseBuf := by
  unfold initContext setupAnalyser drawWaveform
  try dsimp only []
  repeat' split
  all_goals rfl

theorem initContext_brownNoiseNode (s : AudioState) :
    (initContext s).brownNoiseNode = s.brownNoiseNode := by
  unfold initContext setupAnalyser drawWaveform
  try dsimp only []
  repeat' split
  all_goals rfl

theorem initContext_leftOscillator (s : AudioState) :
    (initContext s).leftOscillator = s.leftOscillator := by
  unfold initContext setupAnalyser drawWaveform
  try dsimp only []
  repeat' split
  all_goals rfl

theorem initContext_rightOscillator (s : AudioState) :
    (initContext s).rightOscillator = s.rightOscillator := by
  unfold initContext setupAnalyser drawWaveform
  try dsimp only []
  repeat' split
  all_goals rfl

theorem initContext_leftGain (s : AudioState) :
    (initContext s).leftGain = s.leftGain := by
  unfold initContext setupAnalyser drawWaveform
  try dsimp only []
  repeat' split
  all_goals rfl

theorem initContext_rightGain (s : AudioState) :
    (initContext s).rightGain = s.rightGain := by
  unfold initContext setupAnalyser drawWaveform
  try dsimp only []
  repeat' split
  all_goals rfl

theorem initContext_mergerNode (s : AudioState) :
    (initContext s).mergerNode = s.mergerNode := by
  unfold initContext setupAnalyser drawWaveform
  try dsimp only []
  repeat' split
  all_goals rfl

theorem initContext_of_some (s : AudioState) (c : ℕ) (hc : s.audioContext = some c) :
    initContext s = s := by
  unfold initContext
  rw [if_neg (by simp [hc])]

theorem initContext_of_none (s : AudioState) (hc : s.audioContext = none) :
    (initContext s).audioContext.isSome = true ∧
    (initContext s).gainNode.isSome = true ∧
    (initContext s).gainValue = s.volume := by
  unfold initContext
  rw [if_pos hc]
  refine ⟨?_, ?_, ?_⟩ <;>
    simp [setupAnalyser_audioContext, setupAnalyser_gainNode, setupAnalyser_volume]

theorem setupBinauralBeatsBody_audioContext (s : AudioState) :
    (setupBinauralBeatsBody s).audioContext = s.audioContext := by
  unfold setupBinauralBeatsBody
  try dsimp only []
  repeat' split
  all_goals rfl

theorem setupBinauralBeatsBody_gainNode (s : AudioState) :
    (setupBinauralBeatsBody s).gainNode = s.gainNode := by
  unfold setupBinauralBeatsBody
  try dsimp only []
  repeat' split
  all_goals rfl

theorem setupBinauralBeatsBody_gainValue (s : AudioState) :
    (setupBinauralBeatsBody s).gainValue = s.gainValue := by
  unfold setupBinauralBeatsBody
  try dsimp only []
  repeat' split
  all_goals rfl

theorem setupBinauralBeatsBody_volume (s : AudioState) :
    (setupBinauralBeatsBody s).volume = s.volume := by
  unfold setupBinauralBeatsBody
  try dsimp only []
  repeat' split
  all_goals rfl

theorem setupBinauralBeatsBody_isBrownNoisePlaying (s : AudioState) :
    (setupBinauralBeatsBody s).isBrownNoisePlaying = s.isBrownNoisePlaying := by
  unfold setupBinauralBeatsBody
  try dsimp only []
  repeat' split
  all_goals rfl

theorem setupBinauralBeatsBody_isBinauralPlaying (s : AudioState) :
    (setupBinauralBeatsBody s).isBinauralPlaying = s.isBinauralPlaying := by
  unfold setupBinauralBeatsBody
  try dsimp only []
  repeat' split
  all_goals rfl

theorem setupBinauralBeatsBody_nextBuf (s : AudioState) :
    (setupBinauralBeatsBody s).nextBuf = s.nextBuf := by
  unfold setupBinauralBeatsBody
  try dsimp only []
  repeat' split
  all_goals rfl

theorem setupBinauralBeatsBody_brownNoiseBuf (s : AudioState) :
    (setupBinauralBeatsBody s).brownNoiseBuf = s.brownNoiseBuf := by
  unfold setupBinauralBeatsBody
  try dsimp only []
  repeat' split
  all_goals rfl

theorem setupBinauralBeatsBody_brownNoiseNode (s : AudioState) :
    (setupBinauralBeatsBody s).brownNoiseNode = s.brownNoiseNode := by
  unfold setupBinauralBeatsBody
  try dsimp only []
  repeat' split
  all_goals rfl

theorem updateBinauralBeats_audioContext (s : AudioState) :
    (updateBinauralBeats s).audioContext = s.audioContext := by
  unfold updateBinauralBeats
  repeat' split
  all_goals rfl

theorem updateBinauralBeats_gainNode (s : AudioState) :
    (updateBinauralBeats s).gainNode = s.gainNode := by
  unfold updateBinauralBeats
  repeat' split
  all_goals rfl

theorem updateBinauralBeats_gainValue (s : AudioState) :
    (updateBinauralBeats s).gainValue = s.gainValue := by
  unfold updateBinauralBeats
  repeat' split
  all_goals rfl

theorem updateBinauralBeats_volume (s : AudioState) :
    (updateBinauralBeats s).volume = s.volume := by
  unfold updateBinauralBeats
  repeat' split
  all_goals rfl

theorem updateBinauralBeats_isBrownNoisePlaying (s : AudioState) :
    (updateBinauralBeats s).isBrownNoisePlaying = s.isBrownNoisePlaying := by
  unfold updateBinauralBeats
  repeat' split
  all_goals rfl

theorem updateBinauralBeats_isBinauralPlaying (s : AudioState) :
    (updateBinauralBeats s).isBinauralPlaying = s.isBinauralPlaying := by
  unfold updateBinauralBeats
  repeat' split
  all_goals rfl

theorem presetAnimationStep_audioContext (s : AudioState) :
    (presetAnimationStep s).audioContext = s.audioContext := by
  unfold presetAnimationStep drawWaveform
  try dsimp only []
  repeat' split
  all_goals rfl

theorem presetAnimationStep_gainNode (s : AudioState) :
    (presetAnimationStep s).gainNode = s.gainNode := by
  unfold presetAnimationStep drawWaveform
  try dsimp only []
  repeat' split
  all_goals rfl

theorem presetAnimationStep_gainValue (s : AudioState) :
    (presetAnimationStep s).gainValue = s.gainValue := by
  unfold presetAnimationStep drawWaveform
  try dsimp only []
  repeat' split
  all_goals rfl

theorem presetAnimationStep_volume (s : AudioState) :
    (presetAnimationStep s).volume = s.volume := by
  unfold presetAnimationStep drawWaveform
  try dsimp only []
  repeat' split
  all_goals rfl

theorem presetAnimationStep_isBrownNoisePlaying (s : AudioState) :
    (presetAnimationStep s).isBrownNoisePlaying = s.isBrownNoisePlaying := by
  unfold presetAnimationStep drawWaveform
  try dsimp only []
  repeat' split
  all_goals rfl

theorem presetAnimationStep_isBinauralPlaying (s : AudioState) :
    (presetAnimationStep s).isBinauralPlaying = s.isBinauralPlaying := by
  unfold presetAnimationStep drawWaveform
  try dsimp only []
  repeat' split
  all_goals rfl

theorem toggleBrownNoiseBody_isBinauralPlaying (s : AudioState) :
    (toggleBrownNoiseBody s).isBinauralPlaying = s.isBinauralPlaying := by
  unfold toggleBrownNoiseBody
  try dsimp only []
  repeat' split
  all_goals rfl

theorem toggleBrownNoiseBody_isBrownNoisePlaying (s : AudioState) :
    (toggleBrownNoiseBody s).isBrownNoisePlaying = !s.isBrownNoisePlaying := by
  unfold toggleBrownNoiseBody
  try dsimp only []
  repeat' split
  all_goals simp_all

theorem toggleBrownNoise_isBrownNoisePlaying (s : AudioState) :
    (toggleBrownNoise s).isBrownNoisePlaying = !s.isBrownNoisePlaying := by
  unfold toggleBrownNoise
  rw [toggleBrownNoiseBody_isBrownNoisePlaying, initContext_isBrownNoisePlaying]

theorem toggleBrownNoise_isBinauralPlaying (s : AudioState) :
    (toggleBrownNoise s).isBinauralPlaying = s.isBinauralPlaying := by
  unfold toggleBrownNoise
  rw [toggleBrownNoiseBody_isBinauralPlaying, initContext_isBinauralPlaying]

theorem toggleBinauralBeats_isBinauralPlaying (s : AudioState) :
    (toggleBinauralBeats s).isBinauralPlaying = !s.isBinauralPlaying := by
  unfold toggleBinauralBeats
  try dsimp only []
  repeat' split
  all_goals simp_all

theorem toggleBinauralBeats_isBrownNoisePlaying (s : AudioState) :
    (toggleBinauralBeats s).isBrownNoisePlaying = s.isBrownNoisePlaying := by
  unfold toggleBinauralBeats setupBinauralBeats
  try dsimp only []
  repeat' split
  all_goals simp_all [setupBinauralBeatsBody_isBrownNoisePlaying, initContext_isBrownNoisePlaying]

/-! ### Branch equations for the toggles -/

theorem toggleBrownNoiseBody_on_eq (s : AudioState) (g : ℕ)
    (hp : s.isBrownNoisePlaying = false) (hg : s.gainNode = some g) :
    toggleBrownNoiseBody s =
      { s with brownNoiseNode := some s.nextId
               brownNoiseBuf := some s.nextBuf
               brownNoiseLoop := true
               nextId := s.nextId + 1
               nextBuf := s.nextBuf + 1
               gainValue := s.volume * 0.1
               conns := s.conns ++ [(s.nextId, g)]
               trace := s.trace ++ [AudioEvent.start s.nextId]
               isBrownNoisePlaying := true } := by
  unfold toggleBrownNoiseBody
  rw [if_pos hp]
  simp [hg]

theorem toggleBrownNoiseBody_off_eq (s : AudioState) (n : ℕ)
    (hp : s.isBrownNoisePlaying = true) (hn : s.brownNoiseNode = some n) :
    toggleBrownNoiseBody s =
      { s with brownNoiseNode := none
               isBrownNoisePlaying := false
               conns := s.conns.filter (fun p => p.1 != n)
               trace := s.trace ++ [AudioEvent.stop n, AudioEvent.disconnect n] } := by
  unfold toggleBrownNoiseBody
  rw [if_neg (by simp [hp])]
  simp [hn]

theorem toggleBrownNoiseBody_off_none_eq (s : AudioState)
    (hp : s.isBrownNoisePlaying = true) (hn : s.brownNoiseNode = none) :
    toggleBrownNoiseBody s =
      { s with brownNoiseNode := none, isBrownNoisePlaying := false } := by
  unfold toggleBrownNoiseBody
  rw [if_neg (by simp [hp])]
  simp [hn]

theorem toggleBrownNoise_off_eq (s : AudioState) (c n : ℕ)
    (hc : s.audioContext = some c)
    (hp : s.isBrownNoisePlaying = true) (hn : s.brownNoiseNode = some n) :
    toggleBrownNoise s =
      { s with brownNoiseNode := none
               isBrownNoisePlaying := false
               conns := s.conns.filter (fun p => p.1 != n)
               trace := s.trace ++ [AudioEvent.stop n, AudioEvent.disconnect n] } := by
  unfold toggleBrownNoise
  rw [initContext_of_some s c hc]
  exact toggleBrownNoiseBody_off_eq s n hp hn

theorem toggleBrownNoise_on_eq (s : AudioState) (c g : ℕ)
    (hc : s.audioContext = some c)
    (hp : s.isBrownNoisePlaying = false) (hg : s.gainNode = some g) :
    toggleBrownNoise s =
      { s with brownNoiseNode := some s.nextId
               brownNoiseBuf := some s.nextBuf
               brownNoiseLoop := true
               nextId := s.nextId + 1
               nextBuf := s.nextBuf + 1
               gainValue := s.volume * 0.1
               conns := s.conns ++ [(s.nextId, g)]
               trace := s.trace ++ [AudioEvent.start s.nextId]
               isBrownNoisePlaying := true } := by
  unfold toggleBrownNoise
  rw [initContext_of_some s c hc]
  exact toggleBrownNoiseBody_on_eq s g hp hg

theorem setupBinauralBeatsBody_eq (s : AudioState) (g : ℕ) (hg : s.gainNode = some g) :
    setupBinauralBeatsBody s =
      { s with leftOscillator := some s.nextId
               rightOscillator := some (s.nextId + 1)
               leftGain := some (s.nextId + 2)
               rightGain := some (s.nextId + 3)
               mergerNode := some (s.nextId + 4)
               nextId := s.nextId + 5
               leftOscFreq := s.baseFrequency
               rightOscFreq := s.baseFrequency + s.beatFrequency
               leftGainValue := 0.1
               rightGainValue := 0.1
               conns := s.conns ++ [(s.nextId, s.nextId + 2), (s.nextId + 2, s.nextId + 4),
                 (s.nextId + 1, s.nextId + 3), (s.nextId + 3, s.nextId + 4), (s.nextId + 4, g)]
               trace := s.trace ++ [AudioEvent.start s.nextId, AudioEvent.start (s.nextId + 1)] } := by
  unfold setupBinauralBeatsBody
  simp [hg]

theorem toggleBinauralBeats_on_eq (s : AudioState) (c g : ℕ)
    (hc : s.audioContext = some c) (hb : s.isBinauralPlaying = false)
    (hg : s.gainNode = some g) :
    toggleBinauralBeats s =
      { s with leftOscillator := some s.nextId
               rightOscillator := some (s.nextId + 1)
               leftGain := some (s.nextId + 2)
               rightGain := some (s.nextId + 3)
               mergerNode := some (s.nextId + 4)
               nextId := s.nextId + 5
               leftOscFreq := s.baseFrequency
               rightOscFreq := s.baseFrequency + s.beatFrequency
               leftGainValue := 0.1
               rightGainValue := 0.1
               conns := s.conns ++ [(s.nextId, s.nextId + 2), (s.nextId + 2, s.nextId + 4),
                 (s.nextId + 1, s.nextId + 3), (s.nextId + 3, s.nextId + 4), (s.nextId + 4, g)]
               trace := s.trace ++ [AudioEvent.start s.nextId, AudioEvent.start (s.nextId + 1)]
               isBinauralPlaying := true } := by
  unfold toggleBinauralBeats setupBinauralBeats
  rw [if_pos hb, initContext_of_some s c hc, setupBinauralBeatsBody_eq s g hg]

theorem toggleBinauralBeats_off_eq (s : AudioState) (l r : ℕ)
    (hb : s.isBinauralPlaying = true) (hl : s.leftOscillator = some l)
    (hr : s.rightOscillator = some r) :
    toggleBinauralBeats s =
      { s with leftOscillator := none
               rightOscillator := none
               isBinauralPlaying := false
               conns := (s.conns.filter (fun p => p.1 != l)).filter (fun p => p.1 != r)
               trace := s.trace ++ [AudioEvent.stop l, AudioEvent.stop r,
                 AudioEvent.disconnect l, AudioEvent.disconnect r] } := by
  unfold toggleBinauralBeats
  rw [if_neg (by simp [hb])]
  simp [hl, hr]

theorem updateBinauralBeats_eq (s : AudioState) (l r : ℕ)
    (hl : s.leftOscillator = some l) (hr : s.rightOscillator = some r) :
    updateBinauralBeats s =
      { s with leftOscFreq := s.baseFrequency
               rightOscFreq := s.baseFrequency + s.beatFrequency } := by
  unfold updateBinauralBeats
  simp [hl, hr]

/-! ### The gain-stage invariant -/

theorem gainInvariant_congr (s t : AudioState)
    (h1 : t.audioContext = s.audioContext) (h2 : t.gainNode = s.gainNode)
    (h3 : t.isBrownNoisePlaying = s.isBrownNoisePlaying)
    (h4 : t.gainValue = s.gainValue) (h5 : t.volume = s.volume)
    (h : gainInvariant s) : gainInvariant t := by
  unfold gainInvariant at h ⊢
  rw [h1, h2, h3, h4, h5]
  exact h

theorem gainInvariant_initContext (s : AudioState) (h : gainInvariant s) :
    gainInvariant (initContext s) ∧ (initContext s).gainNode.isSome = true := by
  by_cases hc : s.audioContext = none
  · have hgn : s.gainNode = none := by
      have h1 := h.1
      rw [hc] at h1
      cases hgn2 : s.gainNode
      · rfl
      · rw [hgn2] at h1
        simp at h1
    have hnp : s.isBrownNoisePlaying = false := by
      cases hnp2 : s.isBrownNoisePlaying
      · rfl
      · have h2 := h.2.1 hnp2
        rw [hgn] at h2
        simp at h2
    obtain ⟨e1, e2, e3⟩ := initContext_of_none s hc
    refine ⟨⟨?_, ?_, ?_, ?_⟩, e2⟩
    · rw [e1, e2]
    · intro _
      exact e2
    · intro hb
      rw [initContext_isBrownNoisePlaying, hnp] at hb
      simp at hb
    · intro _
      left
      rw [e3, initContext_volume]
  · obtain ⟨c, hc2⟩ := Option.ne_none_iff_exists'.mp hc
    rw [initContext_of_some s c hc2]
    refine ⟨h, ?_⟩
    rw [← h.1, hc2]
    rfl

theorem gainInvariant_toggleBrownNoise (s : AudioState) (h : gainInvariant s) :
    gainInvariant (toggleBrownNoise s) := by
  obtain ⟨hI, hgS⟩ := gainInvariant_initContext s h
  obtain ⟨g, hg⟩ := Option.isSome_iff_exists.mp hgS
  unfold toggleBrownNoise
  by_cases hp : (initContext s).isBrownNoisePlaying = false
  · rw [toggleBrownNoiseBody_on_eq (initContext s) g hp hg]
    exact ⟨hI.1, fun _ => hgS, fun _ => rfl, fun _ => Or.inr rfl⟩
  · have hp2 : (initContext s).isBrownNoisePlaying = true := by
      cases hx : (initContext s).isBrownNoisePlaying
      · exact absurd hx hp
      · rfl
    cases hn : (initContext s).brownNoiseNode with
    | some n =>
        rw [toggleBrownNoiseBody_off_eq (initContext s) n hp2 hn]
        exact ⟨hI.1, fun hx => absurd hx (by simp),
          fun hx => absurd hx (by simp), hI.2.2.2⟩
    | none =>
        rw [toggleBrownNoiseBody_off_none_eq (initContext s) hp2 hn]
        exact ⟨hI.1, fun hx => absurd hx (by simp),
          fun hx => absurd hx (by simp), hI.2.2.2⟩

theorem gainInvariant_toggleBinauralBeats (s : AudioState) (h : gainInvariant s) :
    gainInvariant (toggleBinauralBeats s) := by
  unfold toggleBinauralBeats setupBinauralBeats
  by_cases hb : s.isBinauralPlaying = false
  · rw [if_pos hb]
    refine gainInvariant_congr (initContext s) _ ?_ ?_ ?_ ?_ ?_
      (gainInvariant_initContext s h).1
    · exact setupBinauralBeatsBody_audioContext _
    · exact setupBinauralBeatsBody_gainNode _
    · exact setupBinauralBeatsBody_isBrownNoisePlaying _
    · exact setupBinauralBeatsBody_gainValue _
    · exact setupBinauralBeatsBody_volume _
  · rw [if_neg hb]
    refine gainInvariant_congr s _ ?_ ?_ ?_ ?_ ?_ h
    all_goals
      try dsimp only []
    all_goals
      repeat' split
    all_goals rfl

theorem gainInvariant_updateBinauralBeats (s : AudioState) (h : gainInvariant s) :
    gainInvariant (updateBinauralBeats s) :=
  gainInvariant_congr s _ (updateBinauralBeats_audioContext s)
    (updateBinauralBeats_gainNode s) (updateBinauralBeats_isBrownNoisePlaying s)
    (updateBinauralBeats_gainValue s) (updateBinauralBeats_volume s) h

theorem gainInvariant_ite (c : Prop) [Decidable c] (a b : AudioState)
    (ha : gainInvariant a) (hb : gainInvariant b) :
    gainInvariant (if c then a else b) := by
  split
  · exact ha
  · exact hb

theorem gainInvariant_setVolume (s : AudioState) (v : ℚ) (h : gainInvariant s) :
    gainInvariant (setVolume v s) := by
  unfold setVolume updateVolume
  dsimp only []
  cases hg : s.gainNode with
  | none =>
      dsimp only []
      have h1 := h.1
      rw [hg] at h1
      refine ⟨h1, ?_, ?_, ?_⟩
      · intro hx
        have h2 := h.2.1 hx
        rw [hg] at h2
        simp at h2
      · intro hx
        have h2 := h.2.1 hx
        rw [hg] at h2
        simp at h2
      · intro hx
        simp at hx
  | some g =>
      dsimp only []
      have h1 := h.1
      rw [hg] at h1
      split
      · exact ⟨h1, fun _ => rfl, fun _ => rfl, fun _ => Or.inr rfl⟩
      · rename_i hcond
        have hp : s.isBrownNoisePlaying ≠ true := hcond
        exact ⟨h1, fun _ => rfl, fun hx => absurd hx hp, fun _ => Or.inl rfl⟩

theorem gainInvariant_setBrainwavePresetCore (freq : Option ℚ) (s : AudioState)
    (h : gainInvariant s) : gainInvariant (setBrainwavePresetCore freq s) := by
  unfold setBrainwavePresetCore
  cases freq with
  | none =>
      try dsimp only []
      exact gainInvariant_ite _ _ _
        (gainInvariant_toggleBinauralBeats _ (gainInvariant_toggleBrownNoise s h))
        (gainInvariant_toggleBrownNoise s h)
  | some f =>
      have hbf : gainInvariant ({ s with beatFrequency := f } : AudioState) :=
        gainInvariant_congr s _ rfl rfl rfl rfl rfl h
      have hmid : gainInvariant
          (if ({ s with beatFrequency := f } : AudioState).isBrownNoisePlaying = true
            then toggleBrownNoise { s with beatFrequency := f }
            else { s with beatFrequency := f }) :=
        gainInvariant_ite _ _ _ (gainInvariant_toggleBrownNoise _ hbf) hbf
      try dsimp only []
      exact gainInvariant_ite _ _ _
        (gainInvariant_toggleBinauralBeats _ hmid)
        (gainInvariant_updateBinauralBeats _ hmid)

theorem gainInvariant_setBrainwavePreset (freq : Option ℚ) (s : AudioState)
    (h : gainInvariant s) : gainInvariant (setBrainwavePreset freq s) := by
  unfold setBrainwavePreset
  refine gainInvariant_congr (setBrainwavePresetCore freq s) _
    (presetAnimationStep_audioContext _) (presetAnimationStep_gainNode _)
    (presetAnimationStep_isBrownNoisePlaying _) (presetAnimationStep_gainValue _)
    (presetAnimationStep_volume _) (gainInvariant_setBrainwavePresetCore freq s h)

/-! ### The brown-noise buffer: recurrence and range -/

theorem brownLoop_length (l : ℚ) (ws : List ℚ) :
    (brownLoop l ws).length = ws.length := by
  induction ws generalizing l with
  | nil => rfl
  | cons w ws ih => simp [brownLoop, ih]

theorem brownLoop_getD_zero (ws : List ℚ) (l : ℚ) (h : 0 < ws.length) :
    (brownLoop l ws).getD 0 0 = (3.5 * l + 0.07 * ws.getD 0 0) / 1.02 := by
  cases ws with
  | nil => simp at h
  | cons w ws =>
      show ((l + 0.02 * w) / 1.02) * 3.5 = (3.5 * l + 0.07 * w) / 1.02
      rw [div_mul_eq_mul_div]
      congr 1
      ring

theorem brownLoop_getD_succ (ws : List ℚ) (l : ℚ) (i : ℕ) (hi : i + 1 < ws.length) :
    (brownLoop l ws).getD (i + 1) 0 =
      ((brownLoop l ws).getD i 0 + 0.07 * ws.getD (i + 1) 0) / 1.02 := by
  induction ws generalizing l i with
  | nil => simp at hi
  | cons w ws ih =>
      cases i with
      | zero =>
          have hlen : 0 < ws.length := by
            simp only [List.length_cons] at hi
            omega
          simp only [brownLoop]
          try dsimp only []
          simp only [List.getD_cons_succ, List.getD_cons_zero]
          rw [brownLoop_getD_zero ws ((l + 0.02 * w) / 1.02) hlen]
          congr 1
          rw [mul_comm]
      | succ j =>
          have hj : j + 1 < ws.length := by
            simp only [List.length_cons] at hi
            omega
          simp only [brownLoop]
          try dsimp only []
          simp only [List.getD_cons_succ]
          exact ih ((l + 0.02 * w) / 1.02) j hj

theorem brownLoop_mem_bound (ws : List ℚ) (l : ℚ) (hl0 : -1 ≤ l) (hl1 : l ≤ 1)
    (hw : ∀ w ∈ ws, -1 ≤ w ∧ w ≤ 1) :
    ∀ y ∈ brownLoop l ws, -3.5 ≤ y ∧ y ≤ 3.5 := by
  induction ws generalizing l with
  | nil =>
      intro y hy
      simp [brownLoop] at hy
  | cons w ws ih =>
      intro y hy
      obtain ⟨hw0, hw1⟩ := hw w (by simp)
      have hx0 : -1 ≤ (l + 0.02 * w) / 1.02 := by
        rw [le_div_iff₀ (by norm_num)]
        linarith
      have hx1 : (l + 0.02 * w) / 1.02 ≤ 1 := by
        rw [div_le_one (by norm_num)]
        linarith
      simp only [brownLoop] at hy
      try dsimp only [] at hy
      rcases List.mem_cons.mp hy with h1 | h2
      · subst h1
        constructor <;> linarith
      · exact ih ((l + 0.02 * w) / 1.02) hx0 hx1
          (fun v hv => hw v (by simp [hv])) y h2

/-! ### Preset selection: mutual exclusion and operation order -/

theorem presetAnimationStep_of_frame (s1 : AudioState) (fid : ℕ)
    (hf : s1.animationFrameId = some fid)
    (hplay : s1.isBrownNoisePlaying = true ∨ s1.isBinauralPlaying = true) :
    presetAnimationStep s1 = s1 := by
  have hA : ¬ ((s1.isBrownNoisePlaying = true ∨ s1.isBinauralPlaying = true) ∧
      s1.animationFrameId = none) := by
    rintro ⟨-, h2⟩
    rw [hf] at h2
    exact Option.noConfusion h2
  have hB : ¬ (s1.isBrownNoisePlaying = false ∧ s1.isBinauralPlaying = false ∧
      s1.animationFrameId ≠ none) := by
    rintro ⟨h1, h2, -⟩
    rcases hplay with h | h
    · rw [h1] at h
      exact Bool.noConfusion h
    · rw [h2] at h
      exact Bool.noConfusion h
  unfold presetAnimationStep
  rw [if_neg hA, if_neg hB]

theorem setBrainwavePresetCore_none_binaural (s : AudioState) :
    (setBrainwavePresetCore none s).isBinauralPlaying = false := by
  unfold setBrainwavePresetCore
  try dsimp only []
  rw [apply_ite AudioState.isBinauralPlaying, toggleBinauralBeats_isBinauralPlaying]
  split
  · rename_i hq
    rw [hq]
    rfl
  · rename_i hq
    simp at hq
    exact hq

theorem setBrainwavePresetCore_some_noise (f : ℚ) (s : AudioState) :
    (setBrainwavePresetCore (some f) s).isBrownNoisePlaying = false := by
  unfold setBrainwavePresetCore
  try dsimp only []
  rw [apply_ite AudioState.isBrownNoisePlaying,
    toggleBinauralBeats_isBrownNoisePlaying, updateBinauralBeats_isBrownNoisePlaying,
    ite_self, apply_ite AudioState.isBrownNoisePlaying,
    toggleBrownNoise_isBrownNoisePlaying]
  split
  · rename_i hq
    rw [hq]
    rfl
  · rename_i hq
    simp at hq
    exact hq

theorem atMostOne_setBrainwavePreset (freq : Option ℚ) (s : AudioState) :
    atMostOnePlaying (setBrainwavePreset freq s) := by
  cases freq with
  | none =>
      right
      unfold setBrainwavePreset
      rw [presetAnimationStep_isBinauralPlaying]
      exact setBrainwavePresetCore_none_binaural s
  | some f =>
      left
      unfold setBrainwavePreset
      rw [presetAnimationStep_isBrownNoisePlaying]
      exact setBrainwavePresetCore_some_noise f s

theorem presetFreq_stops_noise_first (s : AudioState) (f : ℚ) (c g n fid : ℕ)
    (hc : s.audioContext = some c) (hg : s.gainNode = some g)
    (hn : s.brownNoiseNode = some n) (hf : s.animationFrameId = some fid)
    (hp : s.isBrownNoisePlaying = true) (hb : s.isBinauralPlaying = false) :
    (setBrainwavePreset (some f) s).trace.drop s.trace.length =
      [AudioEvent.stop n, AudioEvent.disconnect n,
       AudioEvent.start s.nextId, AudioEvent.start (s.nextId + 1)] ∧
    (setBrainwavePreset (some f) s).isBrownNoisePlaying = false ∧
    (setBrainwavePreset (some f) s).isBinauralPlaying = true := by
  simp [setBrainwavePreset, setBrainwavePresetCore, presetAnimationStep,
    toggleBrownNoise, toggleBrownNoiseBody, toggleBinauralBeats, setupBinauralBeats,
    setupBinauralBeatsBody, initContext, setupAnalyser, drawWaveform,
    hc, hg, hn, hf, hp, hb, List.drop_left]

theorem presetNoise_starts_before_stopping (s : AudioState) (c g l r fid : ℕ)
    (hc : s.audioContext = some c) (hg : s.gainNode = some g)
    (hl : s.leftOscillator = some l) (hr : s.rightOscillator = some r)
    (hf : s.animationFrameId = some fid)
    (hp : s.isBrownNoisePlaying = false) (hb : s.isBinauralPlaying = true) :
    (setBrainwavePreset none s).trace.drop s.trace.length =
      [AudioEvent.start s.nextId, AudioEvent.stop l, AudioEvent.stop r,
       AudioEvent.disconnect l, AudioEvent.disconnect r] ∧
    (setBrainwavePreset none s).isBrownNoisePlaying = true ∧
    (setBrainwavePreset none s).isBinauralPlaying = false := by
  simp [setBrainwavePreset, setBrainwavePresetCore, presetAnimationStep,
    toggleBrownNoise, toggleBrownNoiseBody, toggleBinauralBeats, setupBinauralBeats,
    setupBinauralBeatsBody, initContext, setupAnalyser, drawWaveform,
    hc, hg, hl, hr, hf, hp, hb, List.drop_left]

/-! ### Buffer freshness and activation gain helpers -/

theorem toggleBrownNoise_on_buf (s : AudioState) (h : s.isBrownNoisePlaying = false) :
    (toggleBrownNoise s).brownNoiseBuf = some s.nextBuf ∧
    (toggleBrownNoise s).nextBuf = s.nextBuf + 1 ∧
    (toggleBrownNoise s).isBrownNoisePlaying = true := by
  unfold toggleBrownNoise toggleBrownNoiseBody
  rw [if_pos (show (initContext s).isBrownNoisePlaying = false by
    rw [initContext_isBrownNoisePlaying]; exact h)]
  try dsimp only []
  refine ⟨?_, ?_, ?_⟩
  all_goals repeat' split
  all_goals simp [initContext_nextBuf]

theorem toggleBrownNoise_off_buf (s : AudioState) (h : s.isBrownNoisePlaying = true) :
    (toggleBrownNoise s).brownNoiseBuf = s.brownNoiseBuf ∧
    (toggleBrownNoise s).nextBuf = s.nextBuf ∧
    (toggleBrownNoise s).isBrownNoisePlaying = false := by
  unfold toggleBrownNoise toggleBrownNoiseBody
  rw [if_neg (show ¬ (initContext s).isBrownNoisePlaying = false by
    rw [initContext_isBrownNoisePlaying, h]; simp)]
  try dsimp only []
  refine ⟨?_, ?_, ?_⟩
  all_goals repeat' split
  all_goals simp [initContext_nextBuf, initContext_brownNoiseBuf]

theorem toggleBrownNoise_on_gainValue (s : AudioState)
    (h : s.isBrownNoisePlaying = false)
    (hg : (initContext s).gainNode.isSome = true) :
    (toggleBrownNoise s).gainValue = s.volume * 0.1 := by
  obtain ⟨g, hg2⟩ := Option.isSome_iff_exists.mp hg
  unfold toggleBrownNoise
  rw [toggleBrownNoiseBody_on_eq _ g (by
    rw [initContext_isBrownNoisePlaying]; exact h) hg2]
  show (initContext s).volume * 0.1 = s.volume * 0.1
  rw [initContext_volume]

theorem toggleBinauralBeats_on_gainValue (s : AudioState)
    (hb : s.isBinauralPlaying = false) :
    (toggleBinauralBeats s).gainValue = (initContext s).gainValue := by
  unfold toggleBinauralBeats setupBinauralBeats
  rw [if_pos hb]
  show (setupBinauralBeatsBody (initContext s)).gainValue = _
  rw [setupBinauralBeatsBody_gainValue]

theorem gainInvariant_initialState : gainInvariant initialState := by
  refine ⟨rfl, ?_, ?_, ?_⟩
  all_goals intro hx
  all_goals simp [initialState] at hx

/-! ### Claim theorems -/

set_option maxHeartbeats 1600000 in
/-- Claim C1, counterexample: start the Brown Noise preset (gain becomes
`volume * 0.1`), then select the Theta preset.  Noise stops, tones play,
but the gain is still `1/20 = volume * 0.1`, not `volume = 1/2`: the
claimed "gain equals volume while noise is not playing" is false. -/
theorem C1_counterexample :
    (setBrainwavePreset (some 4) noiseState).isBrownNoisePlaying = false ∧
    (setBrainwavePreset (some 4) noiseState).isBinauralPlaying = true ∧
    (setBrainwavePreset (some 4) noiseState).gainNode = some 1 ∧
    (setBrainwavePreset (some 4) noiseState).volume = 1 / 2 ∧
    (setBrainwavePreset (some 4) noiseState).gainValue = 1 / 20 ∧
    ¬ (setBrainwavePreset (some 4) noiseState).gainValue =
        (setBrainwavePreset (some 4) noiseState).volume := by
  refine ⟨rfl, rfl, rfl, ?_, ?_, ?_⟩
  all_goals
    simp +decide [noiseState, setBrainwavePreset, setBrainwavePresetCore, presetAnimationStep,
      toggleBrownNoise, toggleBrownNoiseBody, toggleBinauralBeats, setupBinauralBeats,
      setupBinauralBeatsBody, updateBinauralBeats, initContext, setupAnalyser,
      drawWaveform, initialState]
  all_goals try norm_num

/-- Claim C1 (amended): while brown noise is playing the shared gain
equals `volume * 0.1`; this — together with the gain node existing
whenever noise plays and the gain always being `volume` or
`volume * 0.1` — is an invariant preserved by every operation (preset
selection, both toggles, volume change for any volume in `[0,1]`) and
holding initially.  The original second half (gain = `volume` whenever
noise is not playing) fails: after noise stops, the gain keeps
`volume * 0.1` until the next volume change or noise start. -/
theorem C1_gain_invariant_preserved (s : AudioState) (h : gainInvariant s)
    (freq : Option ℚ) (v : ℚ) (hv0 : 0 ≤ v) (hv1 : v ≤ 1) :
    gainInvariant initialState ∧
    gainInvariant (setBrainwavePreset freq s) ∧
    gainInvariant (toggleBrownNoise s) ∧
    gainInvariant (toggleBinauralBeats s) ∧
    gainInvariant (setVolume v s) :=
  ⟨gainInvariant_initialState, gainInvariant_setBrainwavePreset freq s h,
   gainInvariant_toggleBrownNoise s h, gainInvariant_toggleBinauralBeats s h,
   gainInvariant_setVolume s v h⟩

/-- Witness for C1 at the initial state, the Theta preset and volume 1/4. -/
theorem C1_gain_invariant_preserved_witness :
    gainInvariant initialState ∧ (0 : ℚ) ≤ 1 / 4 ∧ (1 / 4 : ℚ) ≤ 1 ∧
    (gainInvariant initialState ∧
     gainInvariant (setBrainwavePreset (some 4) initialState) ∧
     gainInvariant (toggleBrownNoise initialState) ∧
     gainInvariant (toggleBinauralBeats initialState) ∧
     gainInvariant (setVolume (1 / 4) initialState)) :=
  ⟨gainInvariant_initialState, by norm_num, by norm_num,
   C1_gain_invariant_preserved initialState gainInvariant_initialState (some 4) (1 / 4)
     (by norm_num) (by norm_num)⟩

/-- Claim C2, counterexample: for the white draws `[1, 1]` the stored
sample at index 1 cannot be written `(data[0] + 0.02 * w) / 1.02` with
`w ∈ [-1, 1]` — the required `w` is `3.5`. -/
theorem C2_counterexample : ¬ storedRecurrence (createBrownNoiseData [1, 1]) := by
  intro h
  obtain ⟨w, hw0, hw1, he⟩ := h 1 (by decide)
  norm_num [createBrownNoiseData, brownLoop, List.getD_cons_succ,
    List.getD_cons_zero] at he
  linarith

/-- Claim C2 (amended): the stored (post `*= 3.5`) samples satisfy
`data[i] = (data[i-1] + 0.07 * white_i) / 1.02` with `white_i` the i-th
white draw (so `0.07 = 0.02 * 3.5`, and `data[-1]` taken as `0`);
equivalently, the claimed `0.02`-recurrence holds for the pre-scaling
values, not for the stored samples. -/
theorem C2_stored_recurrence (ws : List ℚ) (i : ℕ) (hi : i < ws.length) :
    (createBrownNoiseData ws).getD i 0 =
      ((if i = 0 then 0 else (createBrownNoiseData ws).getD (i - 1) 0)
        + 0.07 * ws.getD i 0) / 1.02 := by
  unfold createBrownNoiseData
  cases i with
  | zero =>
      rw [brownLoop_getD_zero ws 0 hi]
      norm_num
  | succ j =>
      rw [brownLoop_getD_succ ws 0 j hi]
      simp

/-- Witness for C2 at the white draws `[1, 1]` and index 1. -/
theorem C2_stored_recurrence_witness :
    1 < ([(1 : ℚ), 1]).length ∧
    (createBrownNoiseData [(1 : ℚ), 1]).getD 1 0 =
      ((if (1 : ℕ) = 0 then 0 else (createBrownNoiseData [(1 : ℚ), 1]).getD (1 - 1) 0)
        + 0.07 * ([(1 : ℚ), 1]).getD 1 0) / 1.02 :=
  ⟨by norm_num, C2_stored_recurrence [1, 1] 1 (by norm_num)⟩

/-- Claim C3, counterexample: selecting the noise preset while the Theta
tones play emits the noise `start` (node 9) before the oscillator `stop`s
(nodes 3, 4): the other mode is not stopped first. -/
theorem C3_counterexample :
    toneState.isBinauralPlaying = true ∧
    toneState.isBrownNoisePlaying = false ∧
    toneState.leftOscillator = some 3 ∧
    toneState.rightOscillator = some 4 ∧
    (setBrainwavePreset none toneState).brownNoiseNode = some 9 ∧
    (setBrainwavePreset none toneState).trace.drop toneState.trace.length =
      [AudioEvent.start 9, AudioEvent.stop 3, AudioEvent.stop 4,
       AudioEvent.disconnect 3, AudioEvent.disconnect 4] :=
  ⟨rfl, rfl, rfl, rfl, rfl, rfl⟩

/-- Claim C3 (amended): every preset selection leaves at most one mode
playing when the call returns; selecting a frequency preset while noise
plays stops and disconnects the noise node before starting the two
oscillators; but selecting the noise preset while tones play starts the
noise source first and stops the oscillators only afterwards. -/
theorem C3_preset_switching :
    (∀ (freq : Option ℚ) (s : AudioState),
      atMostOnePlaying (setBrainwavePreset freq s)) ∧
    (∀ (s : AudioState) (f : ℚ) (c g n fid : ℕ),
      s.audioContext = some c → s.gainNode = some g → s.brownNoiseNode = some n →
      s.animationFrameId = some fid → s.isBrownNoisePlaying = true →
      s.isBinauralPlaying = false →
      (setBrainwavePreset (some f) s).trace.drop s.trace.length =
        [AudioEvent.stop n, AudioEvent.disconnect n,
         AudioEvent.start s.nextId, AudioEvent.start (s.nextId + 1)]) ∧
    (∀ (s : AudioState) (c g l r fid : ℕ),
      s.audioContext = some c → s.gainNode = some g → s.leftOscillator = some l →
      s.rightOscillator = some r → s.animationFrameId = some fid →
      s.isBrownNoisePlaying = false → s.isBinauralPlaying = true →
      (setBrainwavePreset none s).trace.drop s.trace.length =
        [AudioEvent.start s.nextId, AudioEvent.stop l, AudioEvent.stop r,
         AudioEvent.disconnect l, AudioEvent.disconnect r]) :=
  ⟨atMostOne_setBrainwavePreset,
   fun s f c g n fid hc hg hn hf hp hb =>
     (presetFreq_stops_noise_first s f c g n fid hc hg hn hf hp hb).1,
   fun s c g l r fid hc hg hl hr hf hp hb =>
     (presetNoise_starts_before_stopping s c g l r fid hc hg hl hr hf hp hb).1⟩

/-- Witness for C3: exclusion at the Theta preset from the initial state;
the stop-first order when switching from noise to a frequency preset; the
start-first order when switching from tones to the noise preset. -/
theorem C3_preset_switching_witness :
    atMostOnePlaying (setBrainwavePreset (some 4) initialState) ∧
    (setBrainwavePreset (some 8) noiseState).trace.drop noiseState.trace.length =
      [AudioEvent.stop 3, AudioEvent.disconnect 3,
       AudioEvent.start 5, AudioEvent.start 6] ∧
    (setBrainwavePreset none toneState).trace.drop toneState.trace.length =
      [AudioEvent.start 9, AudioEvent.stop 3, AudioEvent.stop 4,
       AudioEvent.disconnect 3, AudioEvent.disconnect 4] :=
  ⟨C3_preset_switching.1 (some 4) initialState,
   C3_preset_switching.2.1 noiseState 8 0 1 3 4 rfl rfl rfl rfl rfl rfl,
   C3_preset_switching.2.2 toneState 0 1 3 4 8 rfl rfl rfl rfl rfl rfl rfl⟩

/-- Claim C4: with the shared gain node created, a volume change to `v`
(`bind:value` then `updateVolume`) while brown noise plays sets the gain
to `v * 0.1`; while the binaural tones play and noise does not, it sets
the gain to `v`. -/
theorem C4_updateVolume_gain (s : AudioState) (v : ℚ) (hv0 : 0 ≤ v) (hv1 : v ≤ 1)
    (g : ℕ) (hg : s.gainNode = some g) :
    (s.isBrownNoisePlaying = true → (setVolume v s).gainValue = v * 0.1) ∧
    (s.isBinauralPlaying = true → s.isBrownNoisePlaying = false →
      (setVolume v s).gainValue = v) := by
  unfold setVolume updateVolume
  try dsimp only []
  cases hg2 : s.gainNode with
  | none =>
      rw [hg2] at hg
      exact Option.noConfusion hg
  | some g2 =>
      try dsimp only []
      constructor
      · intro hp
        split
        · rfl
        · rename_i hcond
          exact absurd hp hcond
      · intro _ hp
        split
        · rename_i hcond
          have hx : s.isBrownNoisePlaying = true := hcond
          rw [hp] at hx
          exact Bool.noConfusion hx
        · rfl

/-- Witness for C4: volume 1/4 while noise plays gives gain 1/40; while
tones play (noise off) gives gain 1/4. -/
theorem C4_updateVolume_gain_witness :
    noiseState.gainNode = some 1 ∧ noiseState.isBrownNoisePlaying = true ∧
    (setVolume (1 / 4) noiseState).gainValue = 1 / 4 * 0.1 ∧
    toneState.gainNode = some 1 ∧ toneState.isBinauralPlaying = true ∧
    (setVolume (1 / 4) toneState).gainValue = 1 / 4 :=
  ⟨rfl, rfl,
   (C4_updateVolume_gain noiseState (1 / 4) (by norm_num) (by norm_num) 1 rfl).1 rfl,
   rfl, rfl,
   (C4_updateVolume_gain toneState (1 / 4) (by norm_num) (by norm_num) 1 rfl).2 rfl rfl⟩

/-- Claim C5: for every buffer length (list of white draws) every stored
sample lies in `[-3.5, 3.5]`, provided each white draw lies in `[-1, 1]`. -/
theorem C5_sample_range (ws : List ℚ) (hw : ∀ w ∈ ws, -1 ≤ w ∧ w ≤ 1) :
    ∀ y ∈ createBrownNoiseData ws, -3.5 ≤ y ∧ y ≤ 3.5 :=
  brownLoop_mem_bound ws 0 (by norm_num) (by norm_num) hw

/-- Witness for C5 at the draws `[1, -1, 1/2]`. -/
theorem C5_sample_range_witness :
    (∀ w ∈ [(1 : ℚ), -1, 1 / 2], -1 ≤ w ∧ w ≤ 1) ∧
    ∀ y ∈ createBrownNoiseData [(1 : ℚ), -1, 1 / 2], -3.5 ≤ y ∧ y ≤ 3.5 :=
  ⟨by norm_num, C5_sample_range [1, -1, 1 / 2] (by norm_num)⟩

/-- Claim C6: each toggle-off path nulls every reference to a node it
stopped: stopping noise nulls `brownNoiseNode` and clears its flag;
stopping the tones nulls both oscillator references and clears its flag —
so a later toggle-on never operates on a stale stopped node. -/
theorem C6_toggleOff_nulls (s : AudioState) :
    (s.isBrownNoisePlaying = true →
      (toggleBrownNoise s).brownNoiseNode = none ∧
      (toggleBrownNoise s).isBrownNoisePlaying = false) ∧
    (s.isBinauralPlaying = true →
      (toggleBinauralBeats s).leftOscillator = none ∧
      (toggleBinauralBeats s).rightOscillator = none ∧
      (toggleBinauralBeats s).isBinauralPlaying = false) := by
  constructor
  · intro hp
    have hp2 : ¬ (initContext s).isBrownNoisePlaying = false := by
      rw [initContext_isBrownNoisePlaying, hp]
      simp
    have hp3 : (initContext s).isBrownNoisePlaying = true := by
      rw [initContext_isBrownNoisePlaying]
      exact hp
    unfold toggleBrownNoise
    cases hn : (initContext s).brownNoiseNode with
    | some n =>
        rw [toggleBrownNoiseBody_off_eq _ n hp3 hn]
        exact ⟨rfl, rfl⟩
    | none =>
        rw [toggleBrownNoiseBody_off_none_eq _ hp3 hn]
        exact ⟨rfl, rfl⟩
  · intro hb
    unfold toggleBinauralBeats
    rw [if_neg (show ¬ s.isBinauralPlaying = false by rw [hb]; simp)]
    try dsimp only []
    refine ⟨?_, ?_, ?_⟩
    all_goals repeat' split
    all_goals rfl

/-- Witness for C6 at the noise-playing and tones-playing states. -/
theorem C6_toggleOff_nulls_witness :
    noiseState.isBrownNoisePlaying = true ∧
    ((toggleBrownNoise noiseState).brownNoiseNode = none ∧
     (toggleBrownNoise noiseState).isBrownNoisePlaying = false) ∧
    toneState.isBinauralPlaying = true ∧
    ((toggleBinauralBeats toneState).leftOscillator = none ∧
     (toggleBinauralBeats toneState).rightOscillator = none ∧
     (toggleBinauralBeats toneState).isBinauralPlaying = false) :=
  ⟨rfl, (C6_toggleOff_nulls noiseState).1 rfl, rfl,
   (C6_toggleOff_nulls toneState).2 rfl⟩

/-- Claim C7: teardown while both sources and the animation are active
performs, in order: cancel the pending animation frame (nulling the id),
stop and disconnect the noise node, stop and disconnect each oscillator,
and finally close the shared audio context — leaving no scheduled
callback. -/
theorem C7_teardown (s : AudioState) (c n l r fid : ℕ)
    (hc : s.audioContext = some c) (hn : s.brownNoiseNode = some n)
    (hl : s.leftOscillator = some l) (hr : s.rightOscillator = some r)
    (hf : s.animationFrameId = some fid) :
    (destroyComponent s).trace.drop s.trace.length =
      [AudioEvent.cancelFrame fid, AudioEvent.stop n, AudioEvent.disconnect n,
       AudioEvent.stop l, AudioEvent.disconnect l,
       AudioEvent.stop r, AudioEvent.disconnect r, AudioEvent.closeContext c] ∧
    (destroyComponent s).animationFrameId = none := by
  simp [destroyComponent, hc, hn, hl, hr, hf, List.drop_left]

/-- Witness for C7 at the state with noise, tones and animation active. -/
theorem C7_teardown_witness :
    bothState.audioContext = some 0 ∧ bothState.brownNoiseNode = some 3 ∧
    bothState.leftOscillator = some 5 ∧ bothState.rightOscillator = some 6 ∧
    bothState.animationFrameId = some 4 ∧
    ((destroyComponent bothState).trace.drop bothState.trace.length =
      [AudioEvent.cancelFrame 4, AudioEvent.stop 3, AudioEvent.disconnect 3,
       AudioEvent.stop 5, AudioEvent.disconnect 5,
       AudioEvent.stop 6, AudioEvent.disconnect 6, AudioEvent.closeContext 0] ∧
     (destroyComponent bothState).animationFrameId = none) :=
  ⟨rfl, rfl, rfl, rfl, rfl, C7_teardown bothState 0 3 5 6 4 rfl rfl rfl rfl rfl⟩

/-- Claim C8: toggling noise on runs the noise synthesis anew — the buffer
assigned is the freshly generated one (id `nextBuf`); after on, off, on
the second activation's buffer is the next fresh id, distinct from the
first and never previously generated. -/
theorem C8_fresh_buffer (s : AudioState) (h : s.isBrownNoisePlaying = false) :
    (toggleBrownNoise s).brownNoiseBuf = some s.nextBuf ∧
    (toggleBrownNoise (toggleBrownNoise s)).isBrownNoisePlaying = false ∧
    (toggleBrownNoise (toggleBrownNoise s)).nextBuf = s.nextBuf + 1 ∧
    (toggleBrownNoise (toggleBrownNoise (toggleBrownNoise s))).brownNoiseBuf =
      some (s.nextBuf + 1) ∧
    s.nextBuf + 1 ≠ s.nextBuf := by
  obtain ⟨b1, n1, p1⟩ := toggleBrownNoise_on_buf s h
  obtain ⟨b2, n2, p2⟩ := toggleBrownNoise_off_buf _ p1
  obtain ⟨b3, n3, p3⟩ := toggleBrownNoise_on_buf _ p2
  refine ⟨b1, p2, ?_, ?_, by omega⟩
  · rw [n2, n1]
  · rw [b3, n2, n1]

/-- Witness for C8 from the initial state: first buffer id 0, after
on/off/on the buffer id is 1. -/
theorem C8_fresh_buffer_witness :
    initialState.isBrownNoisePlaying = false ∧
    ((toggleBrownNoise initialState).brownNoiseBuf = some 0 ∧
     (toggleBrownNoise (toggleBrownNoise initialState)).isBrownNoisePlaying = false ∧
     (toggleBrownNoise (toggleBrownNoise initialState)).nextBuf = 1 ∧
     (toggleBrownNoise (toggleBrownNoise (toggleBrownNoise initialState))).brownNoiseBuf =
       some 1 ∧
     (0 : ℕ) + 1 ≠ 0) :=
  ⟨rfl, C8_fresh_buffer initialState rfl⟩

theorem toggleBinauralBeats_on_gains (s : AudioState) (c g : ℕ)
    (hc : s.audioContext = some c) (hb : s.isBinauralPlaying = false)
    (hg : s.gainNode = some g) :
    (toggleBinauralBeats s).leftGain = some (s.nextId + 2) ∧
    (toggleBinauralBeats s).rightGain = some (s.nextId + 3) ∧
    (toggleBinauralBeats s).mergerNode = some (s.nextId + 4) := by
  rw [toggleBinauralBeats_on_eq s c g hc hb hg]
  exact ⟨rfl, rfl, rfl⟩

/-- Claim C9: stopping the binaural tones nulls only the two oscillators;
the per-channel gain nodes and the (ghost-tracked) merger stay non-null
and stay connected (`leftGain → merger`, `rightGain → merger`,
`merger → gainNode`); a subsequent tone start allocates a fresh pair of
channel gains and a fresh merger, distinct from the old ones. -/
theorem C9_toneStop_frame (s : AudioState) (c g l r lg rg m : ℕ)
    (hc : s.audioContext = some c) (hg : s.gainNode = some g)
    (hb : s.isBinauralPlaying = true)
    (hl : s.leftOscillator = some l) (hr : s.rightOscillator = some r)
    (hlg : s.leftGain = some lg) (hrg : s.rightGain = some rg)
    (hm : s.mergerNode = some m)
    (hne1 : lg ≠ l) (hne2 : lg ≠ r) (hne3 : rg ≠ l) (hne4 : rg ≠ r)
    (hne5 : m ≠ l) (hne6 : m ≠ r)
    (hd1 : lg < s.nextId) (hd2 : rg < s.nextId) (hd3 : m < s.nextId)
    (hc1 : (lg, m) ∈ s.conns) (hc2 : (rg, m) ∈ s.conns) (hc3 : (m, g) ∈ s.conns) :
    ((toggleBinauralBeats s).leftOscillator = none ∧
     (toggleBinauralBeats s).rightOscillator = none ∧
     (toggleBinauralBeats s).leftGain = some lg ∧
     (toggleBinauralBeats s).rightGain = some rg ∧
     (toggleBinauralBeats s).mergerNode = some m ∧
     (lg, m) ∈ (toggleBinauralBeats s).conns ∧
     (rg, m) ∈ (toggleBinauralBeats s).conns ∧
     (m, g) ∈ (toggleBinauralBeats s).conns) ∧
    ((toggleBinauralBeats (toggleBinauralBeats s)).leftGain = some (s.nextId + 2) ∧
     (toggleBinauralBeats (toggleBinauralBeats s)).rightGain = some (s.nextId + 3) ∧
     (toggleBinauralBeats (toggleBinauralBeats s)).mergerNode = some (s.nextId + 4) ∧
     s.nextId + 2 ≠ lg ∧ s.nextId + 3 ≠ rg ∧ s.nextId + 4 ≠ m) := by
  have hoff := toggleBinauralBeats_off_eq s l r hb hl hr
  constructor
  · rw [hoff]
    refine ⟨rfl, rfl, hlg, hrg, hm, ?_, ?_, ?_⟩
    · exact List.mem_filter.mpr
        ⟨List.mem_filter.mpr ⟨hc1, by simp [hne1]⟩, by simp [hne2]⟩
    · exact List.mem_filter.mpr
        ⟨List.mem_filter.mpr ⟨hc2, by simp [hne3]⟩, by simp [hne4]⟩
    · exact List.mem_filter.mpr
        ⟨List.mem_filter.mpr ⟨hc3, by simp [hne5]⟩, by simp [hne6]⟩
  · rw [hoff]
    exact ⟨(toggleBinauralBeats_on_gains _ c g (by exact hc) (by rfl) (by exact hg)).1,
      (toggleBinauralBeats_on_gains _ c g (by exact hc) (by rfl) (by exact hg)).2.1,
      (toggleBinauralBeats_on_gains _ c g (by exact hc) (by rfl) (by exact hg)).2.2,
      by omega, by omega, by omega⟩

/-- Witness for C9 at the tones-playing state: gains 5, 6 and merger 7
survive the stop still wired to gain node 1; the restart allocates 11, 12
and 13. -/
theorem C9_toneStop_frame_witness :
    toneState.leftGain = some 5 ∧ toneState.rightGain = some 6 ∧
    toneState.mergerNode = some 7 ∧
    (((toggleBinauralBeats toneState).leftOscillator = none ∧
      (toggleBinauralBeats toneState).rightOscillator = none ∧
      (toggleBinauralBeats toneState).leftGain = some 5 ∧
      (toggleBinauralBeats toneState).rightGain = some 6 ∧
      (toggleBinauralBeats toneState).mergerNode = some 7 ∧
      (5, 7) ∈ (toggleBinauralBeats toneState).conns ∧
      (6, 7) ∈ (toggleBinauralBeats toneState).conns ∧
      (7, 1) ∈ (toggleBinauralBeats toneState).conns) ∧
     ((toggleBinauralBeats (toggleBinauralBeats toneState)).leftGain = some 11 ∧
      (toggleBinauralBeats (toggleBinauralBeats toneState)).rightGain = some 12 ∧
      (toggleBinauralBeats (toggleBinauralBeats toneState)).mergerNode = some 13 ∧
      (9 : ℕ) + 2 ≠ 5 ∧ (9 : ℕ) + 3 ≠ 6 ∧ (9 : ℕ) + 4 ≠ 7)) :=
  ⟨rfl, rfl, rfl,
   C9_toneStop_frame toneState 0 1 3 4 5 6 7 rfl rfl rfl rfl rfl rfl rfl rfl
     (by decide) (by decide) (by decide) (by decide) (by decide) (by decide)
     (by decide) (by decide) (by decide) (by decide) (by decide) (by decide)⟩

/-- Claim C10: a volume change before any activation (no context, no gain
node) only stores the new volume — no other field changes, no null
dereference — and the stored volume is applied at the next activation:
noise start sets gain `v * 0.1`, tone start sets gain `v`. -/
theorem C10_volume_guarded (s : AudioState) (v : ℚ)
    (hc : s.audioContext = none) (hg : s.gainNode = none)
    (hn : s.isBrownNoisePlaying = false) (hb : s.isBinauralPlaying = false) :
    setVolume v s = { s with volume := v } ∧
    (toggleBrownNoise (setVolume v s)).gainValue = v * 0.1 ∧
    (toggleBinauralBeats (setVolume v s)).gainValue = v := by
  have h1 : setVolume v s = { s with volume := v } := by
    unfold setVolume updateVolume
    try dsimp only []
    cases hg2 : s.gainNode with
    | none => rfl
    | some g2 =>
        rw [hg2] at hg
        exact Option.noConfusion hg
  refine ⟨h1, ?_, ?_⟩
  · rw [h1, toggleBrownNoise_on_gainValue { s with volume := v } hn
      ((initContext_of_none { s with volume := v } hc).2.1)]
  · rw [h1, toggleBinauralBeats_on_gainValue { s with volume := v } hb,
      (initContext_of_none { s with volume := v } hc).2.2]

/-- Witness for C10 at the initial state with volume 3/10. -/
theorem C10_volume_guarded_witness :
    initialState.audioContext = none ∧ initialState.gainNode = none ∧
    initialState.isBrownNoisePlaying = false ∧ initialState.isBinauralPlaying = false ∧
    (setVolume (3 / 10) initialState = { initialState with volume := 3 / 10 } ∧
     (toggleBrownNoise (setVolume (3 / 10) initialState)).gainValue = 3 / 10 * 0.1 ∧
     (toggleBinauralBeats (setVolume (3 / 10) initialState)).gainValue = 3 / 10) :=
  ⟨rfl, rfl, rfl, rfl, C10_volume_guarded initialState (3 / 10) rfl rfl rfl rfl⟩
